import Mathlib

/-!
Verification development for the SunCast solar calculator.

The C++ sources are shallowly embedded here:
* `SolarCalculator.cpp` — the NOAA-style sunrise/sunset calculator.  C++
  `double` arithmetic is modelled over `ℝ`; the constant `M_PI` is modelled by
  the real number `π`; `std::floor` is `Int.floor`, `std::sqrt` is
  `Real.sqrt`, `acos`/`asin` are `Real.arccos`/`Real.arcsin`.
* `ProcessDEM.cpp` — the raster driver.  The binary stream written to stdout
  is modelled as a list of typed tokens together with their byte sizes; GDAL
  I/O (dataset opening, per-tile reads and writes) is modelled by an
  environment of oracles, so that the driver's control flow becomes a pure
  function of that environment.

Float `NaN` and the no-data comparison use an explicit value type `FVal`,
since IEEE `==` on a NaN is always false.
-/

namespace SunCast

open Real

open scoped Classical

/-! ### Discrete helpers (ProcessDEM.cpp) -/

/-- Leap-year test, `(year % 4 == 0 && year % 100 != 0) || (year % 400 == 0)`,
from `ProcessDEM.cpp` (both `streamBinaryOutput` and `processDEM`).  C++ `%`
is truncated remainder, i.e. `Int.tmod`. -/
def isLeapYear (year : ℤ) : Bool :=
  (year.tmod 4 == 0 && year.tmod 100 != 0) || (year.tmod 400 == 0)

/-- `daysInYear = isLeap ? 366 : 365` from `ProcessDEM.cpp`. -/
def daysInYear (year : ℤ) : ℕ :=
  if isLeapYear year then 366 else 365

/-- Month lengths: `31`, except months 4, 6, 9, 11 have `30` and month 2 has
`29`/`28` depending on leap year (`ProcessDEM.cpp`, day loops). -/
def daysInMonth (leap : Bool) (m : ℕ) : ℕ :=
  if m = 4 ∨ m = 6 ∨ m = 9 ∨ m = 11 then 30
  else if m = 2 then (if leap then 29 else 28) else 31

/-- The sequence of `(month, day)` pairs visited by the nested
`for (m = 1..12) for (d = 1..daysInMonth)` loops, in order. -/
def monthDayPairs (leap : Bool) : List (ℕ × ℕ) :=
  (List.range 12).flatMap fun m0 =>
    (List.range (daysInMonth leap (m0 + 1))).map fun d0 => (m0 + 1, d0 + 1)

/-- The `(month, day)` pair whose (0-based) position in the year is `k`. -/
def mdOf (leap : Bool) (k : ℕ) : ℕ × ℕ :=
  (monthDayPairs leap).getD k (0, 0)

/-- Tile origins of the loop `for (v = 0; v < n; v += 512)` in
`DemProcessor::processDEM`. -/
def tileStarts (n : ℕ) : List ℕ :=
  (List.range ((n + 511) / 512)).map (· * 512)

/-- All `(x, y)` tile origins in loop order (`y` outer, `x` inner). -/
def tileList (w h : ℕ) : List (ℕ × ℕ) :=
  (tileStarts h).flatMap fun y => (tileStarts w).map fun x => (x, y)

/-- A `float` value as read from the DEM band: either a NaN or an ordinary
real value.  (`float`/`double` payloads are modelled over `ℝ`.) -/
inductive FVal where
  | nan : FVal
  | val (x : ℝ) : FVal

/-- `std::isnan` on an `FVal`. -/
def FVal.isNaN : FVal → Prop
  | .nan => True
  | .val _ => False

/-- IEEE `==` on `FVal`s: false whenever either side is a NaN. -/
def FVal.feq : FVal → FVal → Prop
  | .val x, .val y => x = y
  | _, _ => False

/-- The numeric payload of a non-NaN value (junk `0` on NaN; every use site
is guarded by the NaN check, as in the source). -/
def FVal.toReal : FVal → ℝ
  | .nan => 0
  | .val x => x

/-- The six GDAL geotransform coefficients. -/
abbrev GeoTransform := Fin 6 → ℝ

/-- `DemProcessor::pixelToGeo`: affine pixel → (lon, lat). -/
def pixelToGeo (gt : GeoTransform) (x y : ℕ) : ℝ × ℝ :=
  (gt 0 + x * gt 1 + y * gt 2, gt 3 + x * gt 4 + y * gt 5)

/-! ### The binary stream of `streamBinaryOutput`, as typed tokens -/

/-- One unit written to `std::cout` by `streamBinaryOutput`: the 5-byte magic
string, a 32-bit int, a 16-bit int, or a 64-bit double. -/
inductive StreamItem where
  | magic (s : String) : StreamItem
  | i32 (v : ℤ) : StreamItem
  | i16 (v : ℤ) : StreamItem
  | f64 (v : ℝ) : StreamItem

/-- Number of bytes each token occupies on the wire (`sizeof` in the source;
the magic is written with length 5 and all its characters are ASCII). -/
def byteSize : StreamItem → ℕ
  | .magic s => s.length
  | .i32 _ => 4
  | .i16 _ => 2
  | .f64 _ => 8

/-- Total byte length of a token list. -/
def byteLen (l : List StreamItem) : ℕ :=
  (l.map byteSize).sum

/-- Whether a token is the magic header token. -/
def isMagicToken : StreamItem → Bool
  | .magic _ => true
  | _ => false

/-! ### A model of the data-parallel pixel pass (OpenMP `parallel for`) -/

/-- Execute a per-pixel pass under a given schedule: each chunk of indices is
one thread's share, and each index `i` stores `f i` at position `i` of the
shared buffer.  (The written value depends only on the pixel index, and each
write goes to the writer's own index, exactly as in the source loops.) -/
def parRun {α : Type} (sched : List (List ℕ)) (f : ℕ → α) (buf : ℕ → α) : ℕ → α :=
  sched.foldl (fun b chunk => chunk.foldl (fun b2 i => Function.update b2 i (f i)) b) buf

/-! ### SolarCalculator.cpp -/

/-- `SolarCalculator::SOLAR_DEPRESSION` (degrees below horizon). -/
noncomputable def SOLAR_DEPRESSION : ℝ := 0.833

/-- `SolarCalculator::julianDay`.  C++ `int` division truncates toward zero
(`Int.tdiv`), and `std::floor` is `Int.floor`. -/
noncomputable def julianDay (year month day : ℤ) : ℝ :=
  let y := if month ≤ 2 then year - 1 else year
  let m := if month ≤ 2 then month + 12 else month
  let A := Int.tdiv y 100
  let B := 2 - A + Int.tdiv A 4
  ((⌊(365.25 : ℝ) * ((y : ℝ) + 4716)⌋ : ℤ) : ℝ) +
    ((⌊(30.6001 : ℝ) * ((m : ℝ) + 1)⌋ : ℤ) : ℝ) + (day : ℝ) + (B : ℝ) - 1524.5

/-- `SolarCalculator::julianCentury`. -/
noncomputable def julianCentury (jd : ℝ) : ℝ :=
  (jd - 2451545.0) / 36525.0

/-- Closed form of `while (L0 > 360.0) L0 -= 360.0`: for `x > 360` the loop
leaves the unique value in `(0, 360]` congruent to `x` mod 360. -/
noncomputable def wrapSub360 (x : ℝ) : ℝ :=
  if x > 360 then x - 360 * ((⌈x / 360⌉ : ℤ) - 1) else x

/-- Closed form of `while (L0 < 0.0) L0 += 360.0`: for `x < 0` the loop
leaves the unique value in `[0, 360)` congruent to `x` mod 360. -/
noncomputable def wrapAdd360 (x : ℝ) : ℝ :=
  if x < 0 then x + 360 * ((⌈-x / 360⌉ : ℤ) : ℝ) else x

/-- `SolarCalculator::sunGeomMeanLongitude` (degrees, normalized by the two
while loops). -/
noncomputable def sunGeomMeanLongitude (t : ℝ) : ℝ :=
  wrapAdd360 (wrapSub360 (280.46646 + t * (36000.76983 + t * 0.0003032)))

/-- `SolarCalculator::sunGeomMeanAnomaly` (degrees). -/
noncomputable def sunGeomMeanAnomaly (t : ℝ) : ℝ :=
  357.52911 + t * (35999.05029 - 0.0001537 * t)

/-- `SolarCalculator::earthOrbitEccentricity`. -/
noncomputable def earthOrbitEccentricity (t : ℝ) : ℝ :=
  0.016708634 - t * (0.000042037 + 0.0000001267 * t)

/-- `SolarCalculator::sunEquationOfCenter` (degrees). -/
noncomputable def sunEquationOfCenter (t : ℝ) : ℝ :=
  Real.sin (sunGeomMeanAnomaly t * π / 180) * (1.914602 - t * (0.004817 + 0.000014 * t)) +
    Real.sin (2 * (sunGeomMeanAnomaly t * π / 180)) * (0.019993 - 0.000101 * t) +
    Real.sin (3 * (sunGeomMeanAnomaly t * π / 180)) * 0.000289

/-- `SolarCalculator::sunTrueLongitude` (degrees). -/
noncomputable def sunTrueLongitude (t : ℝ) : ℝ :=
  sunGeomMeanLongitude t + sunEquationOfCenter t

/-- `SolarCalculator::sunApparentLongitude` (degrees). -/
noncomputable def sunApparentLongitude (t : ℝ) : ℝ :=
  sunTrueLongitude t - 0.00569 - 0.00478 * Real.sin ((125.04 - 1934.136 * t) * π / 180)

/-- `SolarCalculator::meanObliquityOfEcliptic` (degrees). -/
noncomputable def meanObliquityOfEcliptic (t : ℝ) : ℝ :=
  23.0 + (26.0 + ((21.448 - t * (46.815 + t * (0.00059 - t * 0.001813)))) / 60.0) / 60.0

/-- `SolarCalculator::obliquityCorrection` (degrees). -/
noncomputable def obliquityCorrection (t : ℝ) : ℝ :=
  meanObliquityOfEcliptic t + 0.00256 * Real.cos ((125.04 - 1934.136 * t) * π / 180)

/-- `SolarCalculator::sunDeclination` (degrees); the locals `e`, `lambda` and
`sint` are inlined. -/
noncomputable def sunDeclination (t : ℝ) : ℝ :=
  Real.arcsin (Real.sin (obliquityCorrection t * π / 180) *
    Real.sin (sunApparentLongitude t * π / 180)) * 180 / π

/-- `SolarCalculator::equationOfTime` (minutes); the local `y` holds
`tan²(ε/2)` after the `y *= y` statement. -/
noncomputable def equationOfTime (t : ℝ) : ℝ :=
  let y := (Real.tan ((obliquityCorrection t / 2) * π / 180)) ^ 2
  let l0 := sunGeomMeanLongitude t
  let e := earthOrbitEccentricity t
  let m := sunGeomMeanAnomaly t
  let Etime := y * Real.sin (2 * l0 * π / 180) - 2 * e * Real.sin (m * π / 180) +
    4 * e * y * Real.sin (m * π / 180) * Real.cos (2 * l0 * π / 180) -
    0.5 * y ^ 2 * Real.sin (4 * l0 * π / 180) - 1.25 * e ^ 2 * Real.sin (2 * m * π / 180)
  4 * Etime * 180 / π

/-- The local `cosHA` of `SolarCalculator::hourAngleSunrise`: the zenith is
`90 + SOLAR_DEPRESSION - 2.076·√elevation/60` degrees. -/
noncomputable def cosHourAngle (latitude declination elevation : ℝ) : ℝ :=
  Real.cos ((90 + SOLAR_DEPRESSION + (-2.076 * Real.sqrt elevation / 60)) * π / 180) /
      (Real.cos (latitude * π / 180) * Real.cos (declination * π / 180)) -
    Real.tan (latitude * π / 180) * Real.tan (declination * π / 180)

/-- `SolarCalculator::hourAngleSunrise` (degrees): `-1` when the sun never
rises (`cosHA > 1`), `-2` when it never sets (`cosHA < -1`). -/
noncomputable def hourAngleSunrise (latitude declination elevation : ℝ) : ℝ :=
  if cosHourAngle latitude declination elevation > 1 then -1
  else if cosHourAngle latitude declination elevation < -1 then -2
  else Real.arccos (cosHourAngle latitude declination elevation) * 180 / π

/-- Closed form of the normalization
`while (t < 0) t += 24; while (t >= 24) t -= 24`: the unique representative
of `x` modulo 24 lying in `[0, 24)`. -/
noncomputable def wrap24 (x : ℝ) : ℝ :=
  x - 24 * ((⌊x / 24⌋ : ℤ) : ℝ)

/-- The `SolarCalculator` object: its only state is the timezone offset. -/
structure SolarCalculator where
  timezoneOffset_ : ℝ

/-- `SolarCalculator::calculateSolarTime`. -/
noncomputable def SolarCalculator.calculateSolarTime (c : SolarCalculator)
    (latitude longitude elevation : ℝ) (year month day : ℤ) (isSunrise : Bool) : ℝ :=
  let t := julianCentury (julianDay year month day)
  let eqTime := equationOfTime t
  let declination := sunDeclination t
  let ha := hourAngleSunrise latitude declination elevation
  if ha < 0 then -9999
  else
    let solarNoon := (720 - 4 * longitude - eqTime) / 60
    let solarTime := if isSunrise then solarNoon - ha * 4 / 60 else solarNoon + ha * 4 / 60
    wrap24 (solarTime + c.timezoneOffset_)

/-- `SolarCalculator::calculateSunrise`. -/
noncomputable def SolarCalculator.calculateSunrise (c : SolarCalculator)
    (latitude longitude elevation : ℝ) (year month day : ℤ) : ℝ :=
  c.calculateSolarTime latitude longitude elevation year month day true

/-- `SolarCalculator::calculateSunset`. -/
noncomputable def SolarCalculator.calculateSunset (c : SolarCalculator)
    (latitude longitude elevation : ℝ) (year month day : ℤ) : ℝ :=
  c.calculateSolarTime latitude longitude elevation year month day false

/-! ### ProcessDEM.cpp — streaming mode -/

/-- `std::round`: round half away from zero.  The subsequent
`static_cast<int16_t>` is exact for the in-range values produced here. -/
noncomputable def stdRound (x : ℝ) : ℤ :=
  if 0 ≤ x then ⌊x + 1 / 2⌋ else ⌈x - 1 / 2⌉

/-- The per-pixel body of the parallel day loop in
`DemProcessor::streamBinaryOutput`: the pair
`(sunriseBuffer[i], sunsetBuffer[i])` in minutes, `-1` for masked pixels
(NaN, no-data, or zero elevation) and for the `-9999` no-event sentinel. -/
noncomputable def streamPixel (w : ℕ) (gt : GeoTransform) (dem : ℕ → FVal)
    (demNodata : FVal) (tz : ℝ) (year : ℤ) (m d : ℕ) (i : ℕ) : ℤ × ℤ :=
  let elevation := dem i
  if elevation.isNaN ∨ elevation.feq demNodata ∨ elevation.feq (FVal.val 0) then (-1, -1)
  else
    let p := pixelToGeo gt (i % w) (i / w)
    let sunrise := (SolarCalculator.mk tz).calculateSunrise p.2 p.1 elevation.toReal year m d
    let sunset := (SolarCalculator.mk tz).calculateSunset p.2 p.1 elevation.toReal year m d
    (if sunrise < 0 then -1 else stdRound (sunrise * 60),
     if sunset < 0 then -1 else stdRound (sunset * 60))

/-- One binary block of the stream: the 32-bit day-of-year index, the full
sunrise array, then the full sunset array as 16-bit values. -/
noncomputable def dayBlock (w h : ℕ) (gt : GeoTransform) (dem : ℕ → FVal)
    (demNodata : FVal) (tz : ℝ) (year : ℤ) (m d doy : ℕ) : List StreamItem :=
  StreamItem.i32 (doy : ℤ) ::
    (((List.range (w * h)).map fun i =>
        StreamItem.i16 (streamPixel w gt dem demNodata tz year m d i).1) ++
      ((List.range (w * h)).map fun i =>
        StreamItem.i16 (streamPixel w gt dem demNodata tz year m d i).2))

/-- The day loop of `streamBinaryOutput`, carrying the running
`currentDayOfYear` counter (incremented before each block is emitted). -/
noncomputable def streamBodyAux (w h : ℕ) (gt : GeoTransform) (dem : ℕ → FVal)
    (demNodata : FVal) (tz : ℝ) (year : ℤ) : List (ℕ × ℕ) → ℕ → List StreamItem
  | [], _ => []
  | md :: rest, k =>
      dayBlock w h gt dem demNodata tz year md.1 md.2 (k + 1) ++
        streamBodyAux w h gt dem demNodata tz year rest (k + 1)

/-- All blocks emitted after the header, in loop order. -/
noncomputable def streamBody (w h : ℕ) (gt : GeoTransform) (dem : ℕ → FVal)
    (demNodata : FVal) (tz : ℝ) (year : ℤ) : List StreamItem :=
  streamBodyAux w h gt dem demNodata tz year (monthDayPairs (isLeapYear year)) 0

/-- The header tokens of `streamBinaryOutput`: 5-byte magic, three 32-bit
ints, and the six geotransform doubles. -/
noncomputable def headerTokens (w h : ℕ) (year : ℤ) (gt : GeoTransform) : List StreamItem :=
  StreamItem.magic ("SOLAR") :: StreamItem.i32 (w : ℤ) :: StreamItem.i32 (h : ℤ) ::
    StreamItem.i32 ((daysInYear year : ℕ) : ℤ) :: List.ofFn fun i : Fin 6 => StreamItem.f64 (gt i)

/-- The complete token stream written by `DemProcessor::streamBinaryOutput`
(after the input raster has been read successfully). -/
noncomputable def streamBinaryOutput (w h : ℕ) (gt : GeoTransform) (dem : ℕ → FVal)
    (demNodata : FVal) (year : ℤ) (tz : ℝ) : List StreamItem :=
  headerTokens w h year gt ++ streamBody w h gt dem demNodata tz year

/-! ### ProcessDEM.cpp — raster mode -/

/-- `DemProcessor::NODATA_VALUE` (`-9999.0f`). -/
noncomputable def NODATA_VALUE : ℝ := -9999.0

/-- The output dataset descriptor built by `DemProcessor::createOutputDataset`
(geotransform and projection copied from the input, one no-data value and one
description per band). -/
structure OutputDataset where
  width : ℕ
  height : ℕ
  numBands : ℕ
  geoTransform : GeoTransform
  projection : String
  bandNoData : ℕ → ℝ
  bandDescription : ℕ → String

/-- `DemProcessor::createOutputDataset` (the successfully-created dataset). -/
noncomputable def createOutputDataset (width height numBands : ℕ)
    (geoTransform : GeoTransform) (projection : String) : OutputDataset :=
  { width := width
    height := height
    numBands := numBands
    geoTransform := geoTransform
    projection := projection
    bandNoData := fun _ => NODATA_VALUE
    bandDescription := fun i =>
      ("Day ") ++ toString ((i - 1) / 2 + 1) ++
        (if i % 2 ≠ 0 then (" Sunrise") else (" Sunset")) }

/-- The per-pixel band values written by the pixel loop of
`DemProcessor::processDEM`, in band order (day 1 sunrise, day 1 sunset,
day 2 sunrise, ...).  A masked pixel (NaN or no-data elevation) gets
`NODATA_VALUE` in every band; otherwise the calculator is invoked for every
day of the year. -/
noncomputable def rasterPixelBands (e demNodata : FVal) (lat lon : ℝ)
    (year : ℤ) (tz : ℝ) : List ℝ :=
  if e.isNaN ∨ e.feq demNodata then List.replicate (2 * daysInYear year) NODATA_VALUE
  else
    (monthDayPairs (isLeapYear year)).flatMap fun md =>
      [(SolarCalculator.mk tz).calculateSunrise lat lon e.toReal year md.1 md.2,
       (SolarCalculator.mk tz).calculateSunset lat lon e.toReal year md.1 md.2]

/-- The band values of one pixel of one raster tile, as computed by the pixel
loop of `processDEM`: the pixel's local coordinates inside the tile are
`(i % currentBlockX, i / currentBlockX)`, offset by the tile origin `(x, y)`
before `pixelToGeo`. -/
noncomputable def rasterTilePixelBands (demBlock : ℕ → FVal) (nd : FVal)
    (gt : GeoTransform) (x y cbx : ℕ) (year : ℤ) (tz : ℝ) (i : ℕ) : List ℝ :=
  rasterPixelBands (demBlock i) nd
    (pixelToGeo gt (x + i % cbx) (y + i / cbx)).2
    (pixelToGeo gt (x + i % cbx) (y + i / cbx)).1 year tz

/-- One pixel's writes into the band-sequential tile buffer of `processDEM`:
band `b0 + j` of pixel `i` goes to index `(b0 + j) * npix + i`, exactly the
`outputBlock[bandIdx * (currentBlockX * currentBlockY) + i]` stores of the
source (`npix = currentBlockX * currentBlockY`). -/
def writeBands (npix i : ℕ) : List ℝ → ℕ → (ℕ → ℝ) → (ℕ → ℝ)
  | [], _, buf => buf
  | v :: rest, b, buf => writeBands npix i rest (b + 1) (Function.update buf (b * npix + i) v)

/-- The raster-mode per-tile pixel pass under a given schedule: each chunk is
one thread's share of pixel indices, and pixel `i` writes its whole band
column `bands i` starting at band 0. -/
def parRunTile (npix : ℕ) (bands : ℕ → List ℝ) (sched : List (List ℕ))
    (buf : ℕ → ℝ) : ℕ → ℝ :=
  sched.foldl
    (fun bf chunk => chunk.foldl (fun bf2 i => writeBands npix i (bands i) 0 bf2) bf) buf

/-- The input dataset as opened by GDAL. -/
structure InputInfo where
  width : ℕ
  height : ℕ
  geoTransform : GeoTransform
  projection : String
  dem : ℕ → FVal
  noDataValue : FVal

/-- Oracles for the GDAL calls made by `processDEM`: whether the input opens,
whether the output dataset can be created, and whether each per-tile
`RasterIO` read/write succeeds. -/
structure GdalEnv where
  openInput : Option InputInfo
  createOk : Bool
  readBlockOk : ℕ → ℕ → Bool
  writeBlockOk : ℕ → ℕ → Bool

/-- The observable outcome of one `processDEM` run: its boolean result, the
output dataset (if it was created), the tiles whose output was written, and
the logged read/write errors. -/
structure RasterRunResult where
  success : Bool
  output : Option OutputDataset
  written : List (ℕ × ℕ)
  readErrors : List (ℕ × ℕ)
  writeErrors : List (ℕ × ℕ)

/-- The tile loop of `processDEM`: a failed read is logged and skips the tile
(`continue`), a failed write is logged, and in either case the loop moves on
to the next tile. -/
def processTiles (env : GdalEnv) (tiles : List (ℕ × ℕ)) :
    List (ℕ × ℕ) × List (ℕ × ℕ) × List (ℕ × ℕ) :=
  tiles.foldl
    (fun acc t =>
      if env.readBlockOk t.1 t.2 then
        if env.writeBlockOk t.1 t.2 then (acc.1 ++ [t], acc.2.1, acc.2.2)
        else (acc.1, acc.2.1, acc.2.2 ++ [t])
      else (acc.1, acc.2.1 ++ [t], acc.2.2))
    ([], [], [])

/-- `DemProcessor::processDEM` at the level of its observable effects: open
failure aborts before any output exists, create failure aborts before the
tile loop, and the tile loop always runs to completion and returns `true`. -/
noncomputable def processDEM (env : GdalEnv) (year : ℤ) (tz : ℝ) : RasterRunResult :=
  match env.openInput with
  | none => ⟨false, none, [], [], []⟩
  | some input =>
    if env.createOk then
      let out := createOutputDataset input.width input.height (daysInYear year * 2)
        input.geoTransform input.projection
      let r := processTiles env (tileList input.width input.height)
      ⟨true, some out, r.1, r.2.1, r.2.2⟩
    else ⟨false, none, [], [], []⟩

end SunCast

namespace SunCast

open Real

/-! ### Basic lemmas about the calculator -/

/-- `wrap24` lands in `[0, 24)`: lower bound. -/
theorem wrap24_nonneg (x : ℝ) : 0 ≤ wrap24 x := by
  have h := Int.floor_le (x / 24)
  have h24 : (0 : ℝ) < 24 := by norm_num
  unfold wrap24
  nlinarith [h]

/-- `wrap24` lands in `[0, 24)`: upper bound. -/
theorem wrap24_lt (x : ℝ) : wrap24 x < 24 := by
  have h := Int.lt_floor_add_one (x / 24)
  unfold wrap24
  nlinarith [h]

/-- When `cosHA ∈ [-1, 1]`, `hourAngleSunrise` takes the `acos` branch. -/
theorem hourAngleSunrise_eq_arccos (lat decl elev : ℝ)
    (h1 : -1 ≤ cosHourAngle lat decl elev) (h2 : cosHourAngle lat decl elev ≤ 1) :
    hourAngleSunrise lat decl elev =
      Real.arccos (cosHourAngle lat decl elev) * 180 / π := by
  unfold hourAngleSunrise
  rw [if_neg (not_lt.mpr h2), if_neg (not_lt.mpr h1)]

/-- When `cosHA ∈ [-1, 1]`, the hour angle is nonnegative. -/
theorem hourAngleSunrise_nonneg (lat decl elev : ℝ)
    (h1 : -1 ≤ cosHourAngle lat decl elev) (h2 : cosHourAngle lat decl elev ≤ 1) :
    0 ≤ hourAngleSunrise lat decl elev := by
  rw [hourAngleSunrise_eq_arccos lat decl elev h1 h2]
  have := Real.arccos_nonneg (cosHourAngle lat decl elev)
  positivity

/-- When `cosHA > 1`, the never-rises sentinel `-1` is returned. -/
theorem hourAngleSunrise_neverRises (lat decl elev : ℝ)
    (h : 1 < cosHourAngle lat decl elev) :
    hourAngleSunrise lat decl elev = -1 := by
  unfold hourAngleSunrise
  rw [if_pos h]

/-- When `cosHA < -1`, the never-sets sentinel `-2` is returned. -/
theorem hourAngleSunrise_neverSets (lat decl elev : ℝ)
    (h : cosHourAngle lat decl elev < -1) :
    hourAngleSunrise lat decl elev = -2 := by
  unfold hourAngleSunrise
  rw [if_neg (by linarith), if_pos h]

/-- In the polar cases, `calculateSolarTime` returns `-9999` for both events. -/
theorem calculateSolarTime_sentinel (c : SolarCalculator) (lat lon elev : ℝ)
    (year month day : ℤ) (b : Bool)
    (h : 1 < cosHourAngle lat (sunDeclination (julianCentury (julianDay year month day))) elev ∨
      cosHourAngle lat (sunDeclination (julianCentury (julianDay year month day))) elev < -1) :
    c.calculateSolarTime lat lon elev year month day b = -9999 := by
  unfold SolarCalculator.calculateSolarTime
  have hha : hourAngleSunrise lat
      (sunDeclination (julianCentury (julianDay year month day))) elev < 0 := by
    rcases h with h | h
    · rw [hourAngleSunrise_neverRises _ _ _ h]; norm_num
    · rw [hourAngleSunrise_neverSets _ _ _ h]; norm_num
  simp only []
  rw [if_pos hha]

/-- In the event case, `calculateSolarTime` is solar noon shifted by
`±HA·4/60`, plus the timezone offset, normalized by `wrap24`. -/
theorem calculateSolarTime_event (c : SolarCalculator) (lat lon elev : ℝ)
    (year month day : ℤ) (b : Bool)
    (h1 : -1 ≤ cosHourAngle lat (sunDeclination (julianCentury (julianDay year month day))) elev)
    (h2 : cosHourAngle lat (sunDeclination (julianCentury (julianDay year month day))) elev ≤ 1) :
    c.calculateSolarTime lat lon elev year month day b =
      wrap24 ((if b then
          (720 - 4 * lon - equationOfTime (julianCentury (julianDay year month day))) / 60 -
            hourAngleSunrise lat (sunDeclination (julianCentury (julianDay year month day))) elev
              * 4 / 60
        else
          (720 - 4 * lon - equationOfTime (julianCentury (julianDay year month day))) / 60 +
            hourAngleSunrise lat (sunDeclination (julianCentury (julianDay year month day))) elev
              * 4 / 60) + c.timezoneOffset_) := by
  unfold SolarCalculator.calculateSolarTime
  have hha := hourAngleSunrise_nonneg lat
    (sunDeclination (julianCentury (julianDay year month day))) elev h1 h2
  simp only []
  rw [if_neg (not_lt.mpr hha)]

end SunCast

namespace SunCast

open Real

/-! ### Claim C1 -/

/-- C1: for every latitude, declination and elevation ≥ 0, the hour-angle
computation uses exactly the formulas
`zenith = 90 + 0.833 − 2.076·√elevation/60` and
`cos(HA) = cos(zenith)/(cos(lat)·cos(δ)) − tan(lat)·tan(δ)`, and when
`cos(HA) ∈ [−1, 1]` the returned hour angle is `acos(cos HA)` in degrees. -/
theorem claim_C1 (lat decl elev : ℝ) (helev : 0 ≤ elev)
    (h1 : -1 ≤ cosHourAngle lat decl elev) (h2 : cosHourAngle lat decl elev ≤ 1) :
    cosHourAngle lat decl elev =
      Real.cos ((90 + 0.833 - 2.076 * Real.sqrt elev / 60) * π / 180) /
          (Real.cos (lat * π / 180) * Real.cos (decl * π / 180)) -
        Real.tan (lat * π / 180) * Real.tan (decl * π / 180) ∧
    hourAngleSunrise lat decl elev =
      Real.arccos (cosHourAngle lat decl elev) * 180 / π := by
  constructor
  · unfold cosHourAngle SOLAR_DEPRESSION
    ring_nf
  · exact hourAngleSunrise_eq_arccos lat decl elev h1 h2

/-- Witness for C1 at `lat = 0`, `decl = 0`, `elev = 0`. -/
theorem claim_C1_witness :
    cosHourAngle 0 0 0 =
      Real.cos ((90 + 0.833 - 2.076 * Real.sqrt 0 / 60) * π / 180) /
          (Real.cos (0 * π / 180) * Real.cos (0 * π / 180)) -
        Real.tan (0 * π / 180) * Real.tan (0 * π / 180) ∧
    hourAngleSunrise 0 0 0 = Real.arccos (cosHourAngle 0 0 0) * 180 / π := by
  have hc : cosHourAngle 0 0 0 = Real.cos ((90 + 0.833 + -(2.076 * 0 / 60)) * π / 180) := by
    unfold cosHourAngle SOLAR_DEPRESSION
    rw [Real.sqrt_zero]
    norm_num
  refine claim_C1 0 0 0 le_rfl ?_ ?_
  · rw [hc]; exact Real.neg_one_le_cos _
  · rw [hc]; exact Real.cos_le_one _

/-! ### Claim C2 (theorem; witness follows the numeric lemmas below) -/

/-- C2: whenever `cos(HA) > 1` (sun never rises) or `cos(HA) < −1` (sun never
sets), both `calculateSunrise` and `calculateSunset` return the single
sentinel `−9999`, which is not a valid hour of day, and the two polar cases
are indistinguishable in the public results. -/
theorem claim_C2 (tz lat lon elev : ℝ) (year month day : ℤ)
    (h : 1 < cosHourAngle lat (sunDeclination (julianCentury (julianDay year month day))) elev ∨
      cosHourAngle lat (sunDeclination (julianCentury (julianDay year month day))) elev < -1) :
    (SolarCalculator.mk tz).calculateSunrise lat lon elev year month day = -9999 ∧
    (SolarCalculator.mk tz).calculateSunset lat lon elev year month day = -9999 ∧
    ¬ (0 ≤ (-9999 : ℝ) ∧ (-9999 : ℝ) < 24) := by
  refine ⟨?_, ?_, by norm_num⟩
  · exact calculateSolarTime_sentinel _ lat lon elev year month day true h
  · exact calculateSolarTime_sentinel _ lat lon elev year month day false h

/-! ### Claim C3 (theorem; witness follows the numeric lemmas below) -/

/-- C3: when the event occurs (`cos(HA) ∈ [−1, 1]`), the result is solar noon
`(720 − 4·lon − eqTime)/60` minus (sunrise) or plus (sunset) `HA·4/60`,
shifted by the timezone offset and normalized into `[0, 24)`; in particular
every non-sentinel result lies in `[0, 24)`. -/
theorem claim_C3 (tz lat lon elev : ℝ) (year month day : ℤ)
    (h1 : -1 ≤ cosHourAngle lat (sunDeclination (julianCentury (julianDay year month day))) elev)
    (h2 : cosHourAngle lat (sunDeclination (julianCentury (julianDay year month day))) elev ≤ 1) :
    (SolarCalculator.mk tz).calculateSunrise lat lon elev year month day =
      wrap24 ((720 - 4 * lon - equationOfTime (julianCentury (julianDay year month day))) / 60 -
        hourAngleSunrise lat (sunDeclination (julianCentury (julianDay year month day))) elev
          * 4 / 60 + tz) ∧
    (SolarCalculator.mk tz).calculateSunset lat lon elev year month day =
      wrap24 ((720 - 4 * lon - equationOfTime (julianCentury (julianDay year month day))) / 60 +
        hourAngleSunrise lat (sunDeclination (julianCentury (julianDay year month day))) elev
          * 4 / 60 + tz) ∧
    0 ≤ (SolarCalculator.mk tz).calculateSunrise lat lon elev year month day ∧
    (SolarCalculator.mk tz).calculateSunrise lat lon elev year month day < 24 ∧
    0 ≤ (SolarCalculator.mk tz).calculateSunset lat lon elev year month day ∧
    (SolarCalculator.mk tz).calculateSunset lat lon elev year month day < 24 := by
  have hrise := calculateSolarTime_event (SolarCalculator.mk tz) lat lon elev year month day
    true h1 h2
  have hset := calculateSolarTime_event (SolarCalculator.mk tz) lat lon elev year month day
    false h1 h2
  simp only [if_pos rfl] at hrise
  simp only [Bool.false_eq_true, if_neg] at hset
  unfold SolarCalculator.calculateSunrise SolarCalculator.calculateSunset
  rw [hrise, hset]
  exact ⟨rfl, rfl, wrap24_nonneg _, wrap24_lt _, wrap24_nonneg _, wrap24_lt _⟩

end SunCast

namespace SunCast

open Real

theorem julianDay_2000 : julianDay 2000 1 1 = 2451544.5 := by
  have hf1 : (⌊(365.25 : ℝ) * (((1999 : ℤ) : ℝ) + 4716)⌋ : ℤ) = 2452653 := by
    rw [Int.floor_eq_iff] <;> norm_num
  have hf2 : (⌊(30.6001 : ℝ) * (((13 : ℤ) : ℝ) + 1)⌋ : ℤ) = 428 := by
    rw [Int.floor_eq_iff] <;> norm_num
  have hA : Int.tdiv (1999 : ℤ) 100 = 19 := by decide
  have hB : Int.tdiv (19 : ℤ) 4 = 4 := by decide
  unfold julianDay
  rw [if_pos (by norm_num : (1:ℤ) ≤ 2), if_pos (by norm_num : (1:ℤ) ≤ 2)]
  norm_num [hA, hB] at hf1 hf2 ⊢

theorem t2000 : julianCentury (julianDay 2000 1 1) = -1 / 73050 := by
  rw [julianDay_2000]
  unfold julianCentury
  norm_num

end SunCast

namespace SunCast

open Real

theorem mOE_bounds : 23.4392 ≤ meanObliquityOfEcliptic (-1 / 73050) ∧
    meanObliquityOfEcliptic (-1 / 73050) ≤ 23.4394 := by
  unfold meanObliquityOfEcliptic
  constructor <;> norm_num

theorem obliq_bounds : 23.43 ≤ obliquityCorrection (-1 / 73050) ∧
    obliquityCorrection (-1 / 73050) ≤ 23.45 := by
  unfold obliquityCorrection
  have h1 := Real.neg_one_le_cos ((125.04 - 1934.136 * (-1 / 73050)) * π / 180)
  have h2 := Real.cos_le_one ((125.04 - 1934.136 * (-1 / 73050)) * π / 180)
  have h3 := mOE_bounds
  constructor <;> nlinarith [h3.1, h3.2]

theorem epsrad_bounds : 0.40 < obliquityCorrection (-1 / 73050) * π / 180 ∧
    obliquityCorrection (-1 / 73050) * π / 180 < 0.42 := by
  have hπ1 : (3.14 : ℝ) < π := by linarith [Real.pi_gt_314]
  have hπ2 : π < 3.15 := by linarith [Real.pi_lt_315]
  have h := obliq_bounds
  constructor <;> nlinarith [h.1, h.2]

theorem sinEps_bounds : 0 < Real.sin (obliquityCorrection (-1 / 73050) * π / 180) ∧
    Real.sin (obliquityCorrection (-1 / 73050) * π / 180) < 0.42 := by
  have h := epsrad_bounds
  have hπ1 : (3.14 : ℝ) < π := by linarith [Real.pi_gt_314]
  constructor
  · exact Real.sin_pos_of_pos_of_lt_pi (by linarith [h.1]) (by linarith [h.2])
  · calc Real.sin (obliquityCorrection (-1 / 73050) * π / 180) <
        obliquityCorrection (-1 / 73050) * π / 180 := Real.sin_lt (by linarith [h.1])
      _ < 0.42 := h.2

theorem L0_bounds : 279.9 ≤ sunGeomMeanLongitude (-1 / 73050) ∧
    sunGeomMeanLongitude (-1 / 73050) ≤ 280.0 := by
  simp only [sunGeomMeanLongitude, wrapSub360, wrapAdd360]
  norm_num

theorem eqC_bounds : -1.95 ≤ sunEquationOfCenter (-1 / 73050) ∧
    sunEquationOfCenter (-1 / 73050) ≤ 1.95 := by
  unfold sunEquationOfCenter
  have a1 := Real.sin_le_one (sunGeomMeanAnomaly (-1 / 73050) * π / 180)
  have a2 := Real.neg_one_le_sin (sunGeomMeanAnomaly (-1 / 73050) * π / 180)
  have b1 := Real.sin_le_one (2 * (sunGeomMeanAnomaly (-1 / 73050) * π / 180))
  have b2 := Real.neg_one_le_sin (2 * (sunGeomMeanAnomaly (-1 / 73050) * π / 180))
  have c1 := Real.sin_le_one (3 * (sunGeomMeanAnomaly (-1 / 73050) * π / 180))
  have c2 := Real.neg_one_le_sin (3 * (sunGeomMeanAnomaly (-1 / 73050) * π / 180))
  constructor <;> nlinarith

end SunCast

namespace SunCast

open Real

theorem appLong_bounds : 277 ≤ sunApparentLongitude (-1 / 73050) ∧
    sunApparentLongitude (-1 / 73050) ≤ 283 := by
  unfold sunApparentLongitude sunTrueLongitude
  have s1 := Real.sin_le_one ((125.04 - 1934.136 * (-1 / 73050)) * π / 180)
  have s2 := Real.neg_one_le_sin ((125.04 - 1934.136 * (-1 / 73050)) * π / 180)
  have hL := L0_bounds
  have hE := eqC_bounds
  constructor <;> nlinarith [hL.1, hL.2, hE.1, hE.2]

theorem sinLam_neg : Real.sin (sunApparentLongitude (-1 / 73050) * π / 180) < 0 := by
  have h := appLong_bounds
  have hπ0 := Real.pi_pos
  have hgt : π < sunApparentLongitude (-1 / 73050) * π / 180 := by nlinarith [h.1]
  have hlt : sunApparentLongitude (-1 / 73050) * π / 180 < 2 * π := by nlinarith [h.2]
  have hpos : 0 < Real.sin (sunApparentLongitude (-1 / 73050) * π / 180 - π) :=
    Real.sin_pos_of_pos_of_lt_pi (by linarith) (by linarith)
  have hsub : Real.sin (sunApparentLongitude (-1 / 73050) * π / 180 - π) =
      -Real.sin (sunApparentLongitude (-1 / 73050) * π / 180) := by
    rw [Real.sin_sub]
    simp [Real.cos_pi, Real.sin_pi]
  rw [hsub] at hpos
  linarith

theorem sint_bounds :
    Real.sin (obliquityCorrection (-1 / 73050) * π / 180) *
      Real.sin (sunApparentLongitude (-1 / 73050) * π / 180) < 0 ∧
    -0.42 < Real.sin (obliquityCorrection (-1 / 73050) * π / 180) *
      Real.sin (sunApparentLongitude (-1 / 73050) * π / 180) := by
  have h1 := sinEps_bounds
  have h2 := sinLam_neg
  have h3 := Real.neg_one_le_sin (sunApparentLongitude (-1 / 73050) * π / 180)
  constructor
  · exact mul_neg_of_pos_of_neg h1.1 h2
  · nlinarith [h1.1, h1.2]

theorem declRad_eq : sunDeclination (-1 / 73050) * π / 180 =
    Real.arcsin (Real.sin (obliquityCorrection (-1 / 73050) * π / 180) *
      Real.sin (sunApparentLongitude (-1 / 73050) * π / 180)) := by
  unfold sunDeclination
  have hπ := Real.pi_ne_zero
  field_simp

theorem cosDecl_bounds : 0.9 ≤ Real.cos (sunDeclination (-1 / 73050) * π / 180) ∧
    Real.cos (sunDeclination (-1 / 73050) * π / 180) ≤ 1 := by
  rw [declRad_eq, Real.cos_arcsin]
  have hs := sint_bounds
  constructor
  · have h81 : (0.9 : ℝ) = Real.sqrt 0.81 := by
      rw [show (0.81 : ℝ) = 0.9 ^ 2 by norm_num, Real.sqrt_sq (by norm_num : (0:ℝ) ≤ 0.9)]
    rw [h81]
    apply Real.sqrt_le_sqrt
    nlinarith [hs.1, hs.2]
  · exact Real.sqrt_le_one.mpr (by nlinarith [hs.1, hs.2])

theorem tanDecl_eq : Real.tan (sunDeclination (-1 / 73050) * π / 180) =
    (Real.sin (obliquityCorrection (-1 / 73050) * π / 180) *
        Real.sin (sunApparentLongitude (-1 / 73050) * π / 180)) /
      Real.sqrt (1 - (Real.sin (obliquityCorrection (-1 / 73050) * π / 180) *
        Real.sin (sunApparentLongitude (-1 / 73050) * π / 180)) ^ 2) := by
  rw [declRad_eq, Real.tan_arcsin]

theorem polar_cos_gt_one :
    1 < cosHourAngle 60 (sunDeclination (-1 / 73050)) ((30.833 * 60 / 2.076) ^ 2) := by
  unfold cosHourAngle SOLAR_DEPRESSION
  rw [Real.sqrt_sq (by norm_num : (0:ℝ) ≤ 30.833 * 60 / 2.076)]
  have hz : ((90 + 0.833 + -2.076 * (30.833 * 60 / 2.076) / 60) : ℝ) * π / 180 = π / 3 := by
    have h60 : ((90 + 0.833 + -2.076 * (30.833 * 60 / 2.076) / 60) : ℝ) = 60 := by norm_num
    rw [h60]; ring
  have hlat : (60 : ℝ) * π / 180 = π / 3 := by ring
  have htan3 : Real.tan (π / 3) = Real.sqrt 3 := by
    rw [Real.tan_eq_sin_div_cos, Real.sin_pi_div_three, Real.cos_pi_div_three]
    field_simp
  rw [hz, hlat, Real.cos_pi_div_three, htan3, declRad_eq, Real.cos_arcsin, Real.tan_arcsin]
  have hs := sint_bounds
  have hc := cosDecl_bounds
  rw [declRad_eq, Real.cos_arcsin] at hc
  have hc0 : 0 < Real.sqrt (1 - (Real.sin (obliquityCorrection (-1 / 73050) * π / 180) *
      Real.sin (sunApparentLongitude (-1 / 73050) * π / 180)) ^ 2) := by linarith [hc.1]
  have hs3 : Real.sqrt 3 * (Real.sin (obliquityCorrection (-1 / 73050) * π / 180) *
      Real.sin (sunApparentLongitude (-1 / 73050) * π / 180)) < 0 :=
    mul_neg_of_pos_of_neg (Real.sqrt_pos.mpr (by norm_num)) hs.1
  have hrw : (1 : ℝ) / 2 / (1 / 2 * Real.sqrt (1 - (Real.sin (obliquityCorrection (-1 / 73050) * π / 180) *
        Real.sin (sunApparentLongitude (-1 / 73050) * π / 180)) ^ 2)) -
      Real.sqrt 3 * ((Real.sin (obliquityCorrection (-1 / 73050) * π / 180) *
        Real.sin (sunApparentLongitude (-1 / 73050) * π / 180)) /
        Real.sqrt (1 - (Real.sin (obliquityCorrection (-1 / 73050) * π / 180) *
        Real.sin (sunApparentLongitude (-1 / 73050) * π / 180)) ^ 2)) =
      (1 - Real.sqrt 3 * (Real.sin (obliquityCorrection (-1 / 73050) * π / 180) *
        Real.sin (sunApparentLongitude (-1 / 73050) * π / 180))) /
        Real.sqrt (1 - (Real.sin (obliquityCorrection (-1 / 73050) * π / 180) *
        Real.sin (sunApparentLongitude (-1 / 73050) * π / 180)) ^ 2) := by
    field_simp
  rw [hrw, one_lt_div hc0]
  linarith [hc.2]

end SunCast

namespace SunCast

open Real

theorem equator_cos_bounds : -1 ≤ cosHourAngle 0 (sunDeclination (-1 / 73050)) 0 ∧
    cosHourAngle 0 (sunDeclination (-1 / 73050)) 0 ≤ 1 := by
  unfold cosHourAngle SOLAR_DEPRESSION
  rw [Real.sqrt_zero]
  have hz : ((90 + 0.833 + -2.076 * 0 / 60) : ℝ) * π / 180 = 0.833 * π / 180 + π / 2 := by
    ring
  have hlat0 : (0 : ℝ) * π / 180 = 0 := by ring
  rw [hz, Real.cos_add_pi_div_two, hlat0, Real.cos_zero, Real.tan_zero]
  simp only [one_mul, zero_mul, sub_zero]
  have hπ1 : (3.14 : ℝ) < π := by linarith [Real.pi_gt_314]
  have hπ2 : π < 3.15 := by linarith [Real.pi_lt_315]
  have hx1 : (0 : ℝ) < 0.833 * π / 180 := by positivity
  have hx2 : (0.833 : ℝ) * π / 180 < 0.015 := by nlinarith
  have hs1 : 0 < Real.sin (0.833 * π / 180) :=
    Real.sin_pos_of_pos_of_lt_pi hx1 (by nlinarith)
  have hs2 : Real.sin (0.833 * π / 180) < 0.015 := lt_trans (Real.sin_lt hx1) hx2
  have hc := cosDecl_bounds
  have hc0 : 0 < Real.cos (sunDeclination (-1 / 73050) * π / 180) :=
    lt_of_lt_of_le (by norm_num) hc.1
  constructor
  · rw [le_div_iff hc0]
    nlinarith [hc.1]
  · rw [div_le_one hc0]
    nlinarith [hc.1]

end SunCast

namespace SunCast

open Real

/-- Witness for C2: on 2000-01-01 at latitude 60°N with the elevation whose
refraction correction brings the zenith to 60°, `cos(HA) > 1`, and both
public results are the `-9999` sentinel. -/
theorem claim_C2_witness :
    (SolarCalculator.mk 1).calculateSunrise 60 0 ((30.833 * 60 / 2.076) ^ 2) 2000 1 1 = -9999 ∧
    (SolarCalculator.mk 1).calculateSunset 60 0 ((30.833 * 60 / 2.076) ^ 2) 2000 1 1 = -9999 := by
  have h : 1 < cosHourAngle 60 (sunDeclination (julianCentury (julianDay 2000 1 1)))
      ((30.833 * 60 / 2.076) ^ 2) := by
    rw [t2000]
    exact polar_cos_gt_one
  have hmain := claim_C2 1 60 0 ((30.833 * 60 / 2.076) ^ 2) 2000 1 1 (Or.inl h)
  exact ⟨hmain.1, hmain.2.1⟩

/-- Witness for C3: on 2000-01-01 at the equator at sea level the event
occurs, and both results lie in `[0, 24)`. -/
theorem claim_C3_witness :
    0 ≤ (SolarCalculator.mk 1).calculateSunrise 0 0 0 2000 1 1 ∧
    (SolarCalculator.mk 1).calculateSunrise 0 0 0 2000 1 1 < 24 ∧
    0 ≤ (SolarCalculator.mk 1).calculateSunset 0 0 0 2000 1 1 ∧
    (SolarCalculator.mk 1).calculateSunset 0 0 0 2000 1 1 < 24 := by
  have h1 : -1 ≤ cosHourAngle 0 (sunDeclination (julianCentury (julianDay 2000 1 1))) 0 := by
    rw [t2000]
    exact equator_cos_bounds.1
  have h2 : cosHourAngle 0 (sunDeclination (julianCentury (julianDay 2000 1 1))) 0 ≤ 1 := by
    rw [t2000]
    exact equator_cos_bounds.2
  have hmain := claim_C3 1 0 0 0 2000 1 1 h1 h2
  exact ⟨hmain.2.2.1, hmain.2.2.2.1, hmain.2.2.2.2.1, hmain.2.2.2.2.2⟩

end SunCast

namespace SunCast

open Real

/-! ### Claim C7 -/

/-- C7: both modes compute `daysInYear = 366` exactly when
`(year % 4 == 0 && year % 100 != 0) || (year % 400 == 0)` (C++ truncated
`%`), and 365 otherwise; in particular 366 for 2024 and 2000, 365 for 2023
and 1900.  The streaming header carries this value, and the raster output
dataset gets `daysInYear * 2` bands. -/
theorem claim_C7 (year : ℤ) :
    (daysInYear year = 366 ↔
      ((year.tmod 4 = 0 ∧ year.tmod 100 ≠ 0) ∨ year.tmod 400 = 0)) ∧
    (daysInYear year = 365 ∨ daysInYear year = 366) ∧
    daysInYear 2024 = 366 ∧ daysInYear 2000 = 366 ∧
    daysInYear 2023 = 365 ∧ daysInYear 1900 = 365 ∧
    (∀ (w h : ℕ) (gt : GeoTransform) (dem : ℕ → FVal) (nd : FVal) (tz : ℝ),
      (streamBinaryOutput w h gt dem nd year tz).take 4 =
        [StreamItem.magic ("SOLAR"), StreamItem.i32 (w : ℤ), StreamItem.i32 (h : ℤ),
         StreamItem.i32 ((daysInYear year : ℕ) : ℤ)]) ∧
    (∀ (env : GdalEnv) (tz : ℝ),
      (processDEM env year tz).output.map OutputDataset.numBands =
        (processDEM env year tz).output.map fun _ => daysInYear year * 2) := by
  refine ⟨?_, ?_, by decide, by decide, by decide, by decide, ?_, ?_⟩
  · unfold daysInYear isLeapYear
    split_ifs with h
    · simp only [Bool.or_eq_true, Bool.and_eq_true, beq_iff_eq, bne_iff_ne] at h
      exact iff_of_true rfl h
    · simp only [Bool.or_eq_true, Bool.and_eq_true, beq_iff_eq, bne_iff_ne] at h
      constructor
      · intro hh
        omega
      · intro hh
        exact absurd hh h
  · unfold daysInYear
    split_ifs <;> simp
  · intro w h gt dem nd tz
    rfl
  · intro env tz
    unfold processDEM
    cases henv : env.openInput with
    | none => simp
    | some input =>
      split_ifs with hc
      · simp [createOutputDataset]
      · simp

end SunCast

namespace SunCast

open Real

/-! ### Claim C6 -/

/-- The tile fold of `processDEM`, started from any accumulator, classifies
every tile: written iff read and write both succeed, a read error iff the
read fails, a write error iff the read succeeds and the write fails. -/
theorem processTiles_foldl (env : GdalEnv) :
    ∀ (tiles : List (ℕ × ℕ)) (a b c : List (ℕ × ℕ)),
    tiles.foldl
      (fun acc t =>
        if env.readBlockOk t.1 t.2 then
          if env.writeBlockOk t.1 t.2 then (acc.1 ++ [t], acc.2.1, acc.2.2)
          else (acc.1, acc.2.1, acc.2.2 ++ [t])
        else (acc.1, acc.2.1 ++ [t], acc.2.2)) (a, b, c) =
      (a ++ tiles.filter (fun t => env.readBlockOk t.1 t.2 && env.writeBlockOk t.1 t.2),
       b ++ tiles.filter (fun t => !env.readBlockOk t.1 t.2),
       c ++ tiles.filter (fun t => env.readBlockOk t.1 t.2 && !env.writeBlockOk t.1 t.2)) := by
  intro tiles
  induction tiles with
  | nil => intro a b c; simp
  | cons t rest ih =>
    intro a b c
    simp only [List.foldl_cons, List.filter_cons]
    by_cases hr : env.readBlockOk t.1 t.2
    · by_cases hw : env.writeBlockOk t.1 t.2
      · simp [hr, hw, ih]
      · simp [hr, hw, ih]
    · simp [hr, ih]

/-- `processTiles` as three filters over the full tile list. -/
theorem processTiles_eq (env : GdalEnv) (tiles : List (ℕ × ℕ)) :
    processTiles env tiles =
      (tiles.filter (fun t => env.readBlockOk t.1 t.2 && env.writeBlockOk t.1 t.2),
       tiles.filter (fun t => !env.readBlockOk t.1 t.2),
       tiles.filter (fun t => env.readBlockOk t.1 t.2 && !env.writeBlockOk t.1 t.2)) := by
  unfold processTiles
  rw [processTiles_foldl env tiles [] [] []]
  simp

/-- C6: in raster mode a failed tile read or write is logged and only skips
that tile — every other tile is still processed and written — and the run
still reports success; an input that cannot be opened makes `processDEM`
return failure immediately, before any output dataset is created. -/
theorem claim_C6 (env : GdalEnv) (year : ℤ) (tz : ℝ) :
    (env.openInput = none →
      (processDEM env year tz).success = false ∧
      (processDEM env year tz).output = none ∧
      (processDEM env year tz).written = []) ∧
    (∀ input, env.openInput = some input → env.createOk = true →
      (processDEM env year tz).success = true ∧
      (processDEM env year tz).written =
        (tileList input.width input.height).filter
          (fun t => env.readBlockOk t.1 t.2 && env.writeBlockOk t.1 t.2) ∧
      (processDEM env year tz).readErrors =
        (tileList input.width input.height).filter (fun t => !env.readBlockOk t.1 t.2) ∧
      (processDEM env year tz).writeErrors =
        (tileList input.width input.height).filter
          (fun t => env.readBlockOk t.1 t.2 && !env.writeBlockOk t.1 t.2)) := by
  constructor
  · intro hnone
    unfold processDEM
    rw [hnone]
    exact ⟨rfl, rfl, rfl⟩
  · intro input hsome hc
    unfold processDEM
    rw [hsome]
    simp only [if_pos hc, processTiles_eq]
    exact ⟨trivial, trivial, trivial, trivial⟩

/-- Witness for C6: a 600×1 input split into two tiles, where the read of the
tile at `x = 512` fails: the run succeeds, the first tile is written, the
failed tile is logged as a read error and skipped. -/
theorem claim_C6_witness :
    (processDEM ⟨some ⟨600, 1, fun _ => 0, ("p"), fun _ => FVal.val 1, FVal.val (-9999)⟩,
        true, fun x _ => x == 0, fun _ _ => true⟩ 2025 1).success = true ∧
    (processDEM ⟨some ⟨600, 1, fun _ => 0, ("p"), fun _ => FVal.val 1, FVal.val (-9999)⟩,
        true, fun x _ => x == 0, fun _ _ => true⟩ 2025 1).written = [(0, 0)] ∧
    (processDEM ⟨some ⟨600, 1, fun _ => 0, ("p"), fun _ => FVal.val 1, FVal.val (-9999)⟩,
        true, fun x _ => x == 0, fun _ _ => true⟩ 2025 1).readErrors = [(512, 0)] ∧
    (processDEM ⟨some ⟨600, 1, fun _ => 0, ("p"), fun _ => FVal.val 1, FVal.val (-9999)⟩,
        true, fun x _ => x == 0, fun _ _ => true⟩ 2025 1).writeErrors = [] := by
  have h := (claim_C6 ⟨some ⟨600, 1, fun _ => 0, ("p"), fun _ => FVal.val 1, FVal.val (-9999)⟩,
      true, fun x _ => x == 0, fun _ _ => true⟩ 2025 1).2
    ⟨600, 1, fun _ => 0, ("p"), fun _ => FVal.val 1, FVal.val (-9999)⟩ rfl rfl
  refine ⟨h.1, ?_, ?_, ?_⟩
  · rw [h.2.1]; decide
  · rw [h.2.2.1]; decide
  · rw [h.2.2.2]; decide

/-! ### Claim C8 -/

/-- C8: the six geotransform coefficients recorded in each output artifact
are exactly the input's: `createOutputDataset` stores the given coefficients
unchanged, the streaming header carries them as its six `f64` fields, and
the dataset created by `processDEM` carries the opened input's. -/
theorem claim_C8 :
    (∀ (w h n : ℕ) (gt : GeoTransform) (proj : String),
      (createOutputDataset w h n gt proj).geoTransform = gt) ∧
    (∀ (w h : ℕ) (gt : GeoTransform) (dem : ℕ → FVal) (nd : FVal) (year : ℤ) (tz : ℝ),
      (streamBinaryOutput w h gt dem nd year tz).take 10 =
        [StreamItem.magic ("SOLAR"), StreamItem.i32 (w : ℤ), StreamItem.i32 (h : ℤ),
          StreamItem.i32 ((daysInYear year : ℕ) : ℤ)] ++
          List.ofFn fun i : Fin 6 => StreamItem.f64 (gt i)) ∧
    (∀ (env : GdalEnv) (year : ℤ) (tz : ℝ) (input : InputInfo) (out : OutputDataset),
      env.openInput = some input → (processDEM env year tz).output = some out →
      out.geoTransform = input.geoTransform) := by
  refine ⟨fun w h n gt proj => rfl, fun w h gt dem nd year tz => rfl, ?_⟩
  intro env year tz input out h1 h2
  obtain ⟨oi, ck, rb, wb⟩ := env
  simp only at h1
  subst h1
  simp only [processDEM] at h2
  by_cases hc : ck = true
  · rw [if_pos hc] at h2
    simp only [Option.some.injEq] at h2
    rw [← h2]
    rfl
  · rw [if_neg hc] at h2
    exact absurd h2 (by simp)

/-- Witness for C8 via the `processDEM` branch at a concrete environment. -/
theorem claim_C8_witness :
    (createOutputDataset 2 3 (daysInYear 2025 * 2) (fun _ => (5 : ℝ)) ("q")).geoTransform =
      (fun _ => (5 : ℝ)) := by
  exact claim_C8.2.2
    ⟨some ⟨2, 3, (fun _ => (5 : ℝ)), ("q"), fun _ => FVal.val 1, FVal.val (-9999)⟩,
      true, fun _ _ => true, fun _ _ => true⟩ 2025 1
    ⟨2, 3, (fun _ => (5 : ℝ)), ("q"), fun _ => FVal.val 1, FVal.val (-9999)⟩
    (createOutputDataset 2 3 (daysInYear 2025 * 2) (fun _ => (5 : ℝ)) ("q")) rfl rfl

end SunCast

namespace SunCast

open Real

/-! ### Claim C9 -/

/-- One thread's chunk of the pixel pass: position `j` ends up holding `f j`
iff `j` is in the chunk, and is untouched otherwise. -/
theorem chunk_foldl_apply {α : Type} (f : ℕ → α) :
    ∀ (chunk : List ℕ) (buf : ℕ → α) (j : ℕ),
    chunk.foldl (fun b i => Function.update b i (f i)) buf j =
      if j ∈ chunk then f j else buf j := by
  intro chunk
  induction chunk with
  | nil => intro buf j; simp
  | cons i rest ih =>
    intro buf j
    simp only [List.foldl_cons]
    rw [ih, Function.update_apply]
    by_cases hr : j ∈ rest
    · simp [hr]
    · by_cases hj : j = i
      · subst hj
        simp [hr]
      · simp [hr, hj]

/-- `parRun`: position `j` holds `f j` iff some thread's chunk contains `j`. -/
theorem parRun_apply {α : Type} (f : ℕ → α) :
    ∀ (sched : List (List ℕ)) (buf : ℕ → α) (j : ℕ),
    parRun sched f buf j = if j ∈ sched.flatten then f j else buf j := by
  intro sched
  induction sched with
  | nil => intro buf j; simp [parRun]
  | cons c rest ih =>
    intro buf j
    have hstep : parRun (c :: rest) f buf =
        parRun rest f (c.foldl (fun b i => Function.update b i (f i)) buf) := rfl
    rw [hstep, ih, chunk_foldl_apply]
    by_cases h1 : j ∈ rest.flatten
    · rw [if_pos h1, if_pos (by rw [List.flatten_cons, List.mem_append]; exact Or.inr h1)]
    · by_cases h2 : j ∈ c
      · rw [if_neg h1, if_pos h2,
          if_pos (by rw [List.flatten_cons, List.mem_append]; exact Or.inl h2)]
      · rw [if_neg h1, if_neg h2, if_neg (by
          rw [List.flatten_cons, List.mem_append]
          rintro (hc | hr)
          · exact h2 hc
          · exact h1 hr)]

/-- Distinct band slots: a smaller band index gives a smaller buffer index. -/
theorem slot_lt (npix : ℕ) : ∀ (b b2 i i2 : ℕ), i < npix → b < b2 →
    b * npix + i < b2 * npix + i2 := by
  intro b b2 i i2 hi hbb
  calc b * npix + i < b * npix + npix := by omega
    _ = (b + 1) * npix := by ring
    _ ≤ b2 * npix := Nat.mul_le_mul_right npix hbb
    _ ≤ b2 * npix + i2 := Nat.le_add_right _ _

/-- Band-sequential indices are injective in (band, pixel) for in-range
pixel indices: this is why the per-pixel writes never alias. -/
theorem slot_inj (npix b b2 i i2 : ℕ) (hi : i < npix) (hi2 : i2 < npix)
    (h : b * npix + i = b2 * npix + i2) : b = b2 ∧ i = i2 := by
  have hbb : b = b2 := by
    by_contra hne
    rcases Nat.lt_or_ge b b2 with hlt | hge
    · exact absurd h (Nat.ne_of_lt (slot_lt npix b b2 i i2 hi hlt))
    · have hlt2 : b2 < b := by omega
      exact absurd h.symm (Nat.ne_of_lt (slot_lt npix b2 b i2 i hi2 hlt2))
  subst hbb
  exact ⟨rfl, by omega⟩

/-- A pixel's band writes leave every slot outside its band column alone. -/
theorem writeBands_other (npix i : ℕ) :
    ∀ (l : List ℝ) (b0 : ℕ) (buf : ℕ → ℝ) (p : ℕ),
    (∀ j, j < l.length → p ≠ (b0 + j) * npix + i) →
    writeBands npix i l b0 buf p = buf p := by
  intro l
  induction l with
  | nil => intro b0 buf p hp; rfl
  | cons v rest ih =>
    intro b0 buf p hp
    rw [show writeBands npix i (v :: rest) b0 buf =
        writeBands npix i rest (b0 + 1) (Function.update buf (b0 * npix + i) v) from rfl]
    rw [ih (b0 + 1) _ p (fun j hj => by
      have harg : b0 + 1 + j = b0 + (j + 1) := by omega
      rw [harg]
      exact hp (j + 1) (by simp only [List.length_cons]; omega))]
    rw [Function.update_apply, if_neg (by
      have := hp 0 (by simp)
      simpa using this)]

/-- A pixel's band writes store exactly its band values in its own column. -/
theorem writeBands_hit (npix i : ℕ) (hi : i < npix) :
    ∀ (l : List ℝ) (b0 b : ℕ) (buf : ℕ → ℝ), b < l.length →
    writeBands npix i l b0 buf ((b0 + b) * npix + i) = l.getD b 0 := by
  intro l
  induction l with
  | nil => intro b0 b buf hb; simp at hb
  | cons v rest ih =>
    intro b0 b buf hb
    rw [show writeBands npix i (v :: rest) b0 buf =
        writeBands npix i rest (b0 + 1) (Function.update buf (b0 * npix + i) v) from rfl]
    cases b with
    | zero =>
      simp only [Nat.add_zero]
      rw [writeBands_other npix i rest (b0 + 1) _ (b0 * npix + i) (fun j hj heq => by
        have := (slot_inj npix b0 (b0 + 1 + j) i i hi hi heq).1
        omega)]
      rw [Function.update_apply, if_pos rfl]
      rfl
    | succ b2 =>
      have harg : b0 + (b2 + 1) = b0 + 1 + b2 := by omega
      rw [harg, ih (b0 + 1) b2 _ (by simp only [List.length_cons] at hb; omega),
        List.getD_cons_succ]

/-- One thread's chunk of the tile pass: slot `(b, i)` ends up holding pixel
`i`'s band-`b` value iff `i` is in the chunk, and is untouched otherwise. -/
theorem chunkTile_apply (npix : ℕ) (bands : ℕ → List ℝ) (i b : ℕ) (hi : i < npix) :
    ∀ (chunk : List ℕ) (buf : ℕ → ℝ), (∀ m2 ∈ chunk, m2 < npix) →
    b < (bands i).length →
    chunk.foldl (fun bf ix => writeBands npix ix (bands ix) 0 bf) buf (b * npix + i) =
      if i ∈ chunk then (bands i).getD b 0 else buf (b * npix + i) := by
  intro chunk
  induction chunk with
  | nil => intro buf hm hb; simp
  | cons m rest ih =>
    intro buf hm hb
    rw [List.foldl_cons, ih _ (fun x hx => hm x (List.mem_cons_of_mem m hx)) hb]
    by_cases hmem : i ∈ rest
    · rw [if_pos hmem, if_pos (List.mem_cons_of_mem m hmem)]
    · rw [if_neg hmem]
      by_cases heq : m = i
      · subst heq
        rw [if_pos (List.mem_cons_self m rest)]
        have hh := writeBands_hit npix m hi (bands m) 0 b buf hb
        rw [Nat.zero_add] at hh
        exact hh
      · rw [if_neg (fun hc => by
          rcases List.mem_cons.mp hc with h1 | h2
          · exact heq h1.symm
          · exact hmem h2)]
        exact writeBands_other npix m (bands m) 0 buf (b * npix + i) (fun j hj heq2 => by
          have := (slot_inj npix b (0 + j) i m hi
            (hm m (List.mem_cons_self m rest)) heq2).2
          exact heq this.symm)

/-- `parRunTile`: slot `(b, i)` holds pixel `i`'s band-`b` value iff some
thread's chunk contains `i`. -/
theorem parRunTile_apply (npix : ℕ) (bands : ℕ → List ℝ) (i b : ℕ) (hi : i < npix) :
    ∀ (sched : List (List ℕ)) (buf : ℕ → ℝ),
    (∀ m2 ∈ sched.flatten, m2 < npix) → b < (bands i).length →
    parRunTile npix bands sched buf (b * npix + i) =
      if i ∈ sched.flatten then (bands i).getD b 0 else buf (b * npix + i) := by
  intro sched
  induction sched with
  | nil => intro buf hm hb; simp [parRunTile]
  | cons c rest ih =>
    intro buf hm hb
    have hstep : parRunTile npix bands (c :: rest) buf =
        parRunTile npix bands rest
          (c.foldl (fun bf ix => writeBands npix ix (bands ix) 0 bf) buf) := rfl
    rw [hstep,
      ih _ (fun m2 hm2 => hm m2 (by rw [List.flatten_cons, List.mem_append]; exact Or.inr hm2)) hb,
      chunkTile_apply npix bands i b hi c buf
        (fun m2 hm2 => hm m2 (by rw [List.flatten_cons, List.mem_append]; exact Or.inl hm2)) hb]
    by_cases h1 : i ∈ rest.flatten
    · rw [if_pos h1, if_pos (by rw [List.flatten_cons, List.mem_append]; exact Or.inr h1)]
    · by_cases h2 : i ∈ c
      · rw [if_neg h1, if_pos h2,
          if_pos (by rw [List.flatten_cons, List.mem_append]; exact Or.inl h2)]
      · rw [if_neg h1, if_neg h2, if_neg (by
          rw [List.flatten_cons, List.mem_append]
          rintro (hc | hr)
          · exact h2 hc
          · exact h1 hr)]

/-- Every pixel gets the full `2·daysInYear` band column, masked or not. -/
theorem rasterPixelBands_length (e nd : FVal) (lat lon : ℝ) (year : ℤ) (tz : ℝ) :
    (rasterPixelBands e nd lat lon year tz).length = 2 * daysInYear year := by
  unfold rasterPixelBands
  split_ifs with hm
  · exact List.length_replicate _ _
  · rw [List.length_flatMap]
    rw [show List.map (List.length ∘ fun md : ℕ × ℕ =>
        [(SolarCalculator.mk tz).calculateSunrise lat lon e.toReal year md.1 md.2,
         (SolarCalculator.mk tz).calculateSunset lat lon e.toReal year md.1 md.2])
        (monthDayPairs (isLeapYear year)) =
      List.map (Function.const (ℕ × ℕ) 2) (monthDayPairs (isLeapYear year)) from rfl]
    rw [List.map_const, List.sum_replicate, smul_eq_mul]
    have hlen : (monthDayPairs (isLeapYear year)).length = daysInYear year := by
      unfold monthDayPairs daysInYear
      rw [List.length_flatMap]
      cases h2 : isLeapYear year <;> decide
    rw [hlen]
    omega

/-- C9: both data-parallel pixel passes are deterministic in the schedule.
For the streaming per-day pass, any two schedules covering each pixel index
exactly once (e.g. one single-threaded chunk vs. any N-thread partition)
produce identical sunrise/sunset buffers, each position holding exactly
`streamPixel … i`.  For the raster per-tile pass, whose pixel `i` writes only
the band-sequential slots `b·npix + i` of its own pixel index, any two such
schedules produce identical tile buffers on every band slot, each slot
holding exactly pixel `i`'s band-`b` value. -/
theorem claim_C9 (w h : ℕ) (gt : GeoTransform) (dem : ℕ → FVal) (nd : FVal)
    (tz : ℝ) (year : ℤ) (m d : ℕ) (init : ℕ → ℤ × ℤ) (s₁ s₂ : List (List ℕ))
    (h₁ : List.Perm s₁.flatten (List.range (w * h)))
    (h₂ : List.Perm s₂.flatten (List.range (w * h)))
    (demBlock : ℕ → FVal) (x y cbx cby : ℕ) (initR : ℕ → ℝ)
    (r₁ r₂ : List (List ℕ))
    (hr₁ : List.Perm r₁.flatten (List.range (cbx * cby)))
    (hr₂ : List.Perm r₂.flatten (List.range (cbx * cby))) :
    parRun s₁ (streamPixel w gt dem nd tz year m d) init =
      parRun s₂ (streamPixel w gt dem nd tz year m d) init ∧
    (∀ i, i < w * h → parRun s₁ (streamPixel w gt dem nd tz year m d) init i =
      streamPixel w gt dem nd tz year m d i) ∧
    (∀ b i, i < cbx * cby → b < 2 * daysInYear year →
      parRunTile (cbx * cby) (rasterTilePixelBands demBlock nd gt x y cbx year tz) r₁ initR
          (b * (cbx * cby) + i) =
        parRunTile (cbx * cby) (rasterTilePixelBands demBlock nd gt x y cbx year tz) r₂ initR
          (b * (cbx * cby) + i)) ∧
    (∀ b i, i < cbx * cby → b < 2 * daysInYear year →
      parRunTile (cbx * cby) (rasterTilePixelBands demBlock nd gt x y cbx year tz) r₁ initR
          (b * (cbx * cby) + i) =
        (rasterTilePixelBands demBlock nd gt x y cbx year tz i).getD b 0) := by
  have key : ∀ (s : List (List ℕ)), List.Perm s.flatten (List.range (w * h)) → ∀ j,
      parRun s (streamPixel w gt dem nd tz year m d) init j =
        if j < w * h then streamPixel w gt dem nd tz year m d j else init j := by
    intro s hs j
    rw [parRun_apply]
    have hmem : j ∈ s.flatten ↔ j < w * h := by
      rw [hs.mem_iff, List.mem_range]
    by_cases hj : j < w * h
    · rw [if_pos (hmem.mpr hj), if_pos hj]
    · rw [if_neg (fun hc => hj (hmem.mp hc)), if_neg hj]
  have keyR : ∀ (s : List (List ℕ)), List.Perm s.flatten (List.range (cbx * cby)) →
      ∀ b i, i < cbx * cby → b < 2 * daysInYear year →
      parRunTile (cbx * cby) (rasterTilePixelBands demBlock nd gt x y cbx year tz) s initR
          (b * (cbx * cby) + i) =
        (rasterTilePixelBands demBlock nd gt x y cbx year tz i).getD b 0 := by
    intro s hs b i hi hb
    have hlen : b < (rasterTilePixelBands demBlock nd gt x y cbx year tz i).length := by
      unfold rasterTilePixelBands
      rw [rasterPixelBands_length]
      exact hb
    have hmem : ∀ m2 ∈ s.flatten, m2 < cbx * cby := fun m2 hm2 =>
      List.mem_range.mp (hs.mem_iff.mp hm2)
    rw [parRunTile_apply (cbx * cby) _ i b hi s initR hmem hlen,
      if_pos (hs.mem_iff.mpr (List.mem_range.mpr hi))]
  refine ⟨?_, ?_, ?_, ?_⟩
  · funext j
    rw [key s₁ h₁ j, key s₂ h₂ j]
  · intro i hi
    rw [key s₁ h₁ i, if_pos hi]
  · intro b i hi hb
    rw [keyR r₁ hr₁ b i hi hb, keyR r₂ hr₂ b i hi hb]
  · intro b i hi hb
    exact keyR r₁ hr₁ b i hi hb

/-- Witness for C9: a 2×1 grid (and a 2×1 raster tile) run with one thread
(`[[0, 1]]`) and with two threads in reversed order (`[[1], [0]]`) produces
identical buffers in both modes. -/
theorem claim_C9_witness :
    parRun [[0, 1]]
        (streamPixel 2 (fun _ => 0) (fun _ => FVal.val 1) (FVal.val (-9999)) 1 2025 1 1)
        (fun _ => (0, 0)) =
      parRun [[1], [0]]
        (streamPixel 2 (fun _ => 0) (fun _ => FVal.val 1) (FVal.val (-9999)) 1 2025 1 1)
        (fun _ => (0, 0)) ∧
    parRunTile (2 * 1)
        (rasterTilePixelBands (fun _ => FVal.val 1) (FVal.val (-9999)) (fun _ => 0) 0 0 2 2025 1)
        [[0, 1]] (fun _ => 0) (0 * (2 * 1) + 0) =
      parRunTile (2 * 1)
        (rasterTilePixelBands (fun _ => FVal.val 1) (FVal.val (-9999)) (fun _ => 0) 0 0 2 2025 1)
        [[1], [0]] (fun _ => 0) (0 * (2 * 1) + 0) := by
  have h₁ : List.Perm ([[0, 1]] : List (List ℕ)).flatten (List.range (2 * 1)) := by
    rw [show ([[0, 1]] : List (List ℕ)).flatten = [0, 1] by rfl,
      show List.range (2 * 1) = [0, 1] from rfl]
  have h₂ : List.Perm ([[1], [0]] : List (List ℕ)).flatten (List.range (2 * 1)) := by
    rw [show ([[1], [0]] : List (List ℕ)).flatten = [1, 0] by rfl,
      show List.range (2 * 1) = [0, 1] from rfl]
    exact List.Perm.swap 0 1 []
  have hmain := claim_C9 2 1 (fun _ => 0) (fun _ => FVal.val 1) (FVal.val (-9999)) 1 2025 1 1
    (fun _ => (0, 0)) [[0, 1]] [[1], [0]] h₁ h₂
    (fun _ => FVal.val 1) 0 0 2 1 (fun _ => 0) [[0, 1]] [[1], [0]] h₁ h₂
  exact ⟨hmain.1, hmain.2.2.1 0 0 (by decide) (by decide)⟩

end SunCast

namespace SunCast

open Real

/-! ### List helpers for the stream layout -/

/-- `getD` on a replicated list with the replicated element as default. -/
theorem getD_replicate_self {α : Type} (a : α) :
    ∀ (n j : ℕ), (List.replicate n a).getD j a = a := by
  intro n
  induction n with
  | zero => intro j; rfl
  | succ n ih =>
    intro j
    cases j with
    | zero => rfl
    | succ j => simpa [List.replicate_succ, List.getD_cons_succ] using ih j

/-- Reading the interleaved `[f a, g a]` fan-out at even/odd positions. -/
theorem flatMap_pair_getD {α β : Type} (f g : α → β) (dβ : β) (a₀ : α) :
    ∀ (l : List α) (k : ℕ), k < l.length →
    ((l.flatMap fun a => [f a, g a]).getD (2 * k) dβ = f (l.getD k a₀) ∧
     (l.flatMap fun a => [f a, g a]).getD (2 * k + 1) dβ = g (l.getD k a₀)) := by
  intro l
  induction l with
  | nil => intro k hk; simp at hk
  | cons a rest ih =>
    intro k hk
    have e1 : ((a :: rest).flatMap fun x => [f x, g x]) =
        f a :: g a :: (rest.flatMap fun x => [f x, g x]) := by
      simp [List.flatMap_cons]
    cases k with
    | zero => rw [e1]; constructor <;> simp
    | succ k =>
      have hk2 : k < rest.length := by
        simp only [List.length_cons] at hk
        omega
      constructor
      · rw [e1, show 2 * (k + 1) = 2 * k + 1 + 1 by ring]
        simp only [List.getD_cons_succ]
        exact (ih k hk2).1
      · rw [e1, show 2 * (k + 1) + 1 = 2 * k + 1 + 1 + 1 by ring]
        simp only [List.getD_cons_succ]
        exact (ih k hk2).2

/-- The counter-carrying day loop, flattened: block `j` (0-based) carries day
index `k + j + 1` and the `(month, day)` pair at position `j`. -/
theorem streamBodyAux_eq (w h : ℕ) (gt : GeoTransform) (dem : ℕ → FVal)
    (nd : FVal) (tz : ℝ) (year : ℤ) :
    ∀ (l : List (ℕ × ℕ)) (k : ℕ),
    streamBodyAux w h gt dem nd tz year l k =
      (List.range l.length).flatMap fun j =>
        dayBlock w h gt dem nd tz year (l.getD j (0, 0)).1 (l.getD j (0, 0)).2 (k + j + 1) := by
  intro l
  induction l with
  | nil => intro k; simp [streamBodyAux]
  | cons md rest ih =>
    intro k
    rw [show streamBodyAux w h gt dem nd tz year (md :: rest) k =
        dayBlock w h gt dem nd tz year md.1 md.2 (k + 1) ++
          streamBodyAux w h gt dem nd tz year rest (k + 1) from rfl]
    rw [ih (k + 1), List.length_cons, List.range_succ_eq_map, List.flatMap_cons,
      List.flatMap_map]
    congr 1
    all_goals
      first
        | (refine congrArg _ (funext fun j => ?_)
           simp only [Nat.succ_eq_add_one, List.getD_cons_succ]
           rw [show k + (j + 1) + 1 = k + 1 + j + 1 by omega])
        | simp

/-- The month/day double loop visits 366 pairs in a leap year, 365 otherwise. -/
theorem monthDayPairs_length (leap : Bool) :
    (monthDayPairs leap).length = if leap then 366 else 365 := by
  unfold monthDayPairs
  rw [List.length_flatMap]
  cases leap <;> decide

/-- The day loop emits exactly `daysInYear` pairs. -/
theorem monthDayPairs_length_daysInYear (year : ℤ) :
    (monthDayPairs (isLeapYear year)).length = daysInYear year := by
  unfold daysInYear
  cases h : isLeapYear year <;> simp [h, monthDayPairs_length]

/-- `byteLen` is additive. -/
theorem byteLen_append (l1 l2 : List StreamItem) :
    byteLen (l1 ++ l2) = byteLen l1 + byteLen l2 := by
  unfold byteLen
  rw [List.map_append, List.sum_append]

/-- `byteLen` of a cons. -/
theorem byteLen_cons (x : StreamItem) (l : List StreamItem) :
    byteLen (x :: l) = byteSize x + byteLen l := by
  unfold byteLen
  rw [List.map_cons, List.sum_cons]

/-- An array of `n` 16-bit values occupies `2·n` bytes. -/
theorem byteLen_i16_map (n : ℕ) (v : ℕ → ℤ) :
    byteLen ((List.range n).map fun i => StreamItem.i16 (v i)) = 2 * n := by
  unfold byteLen
  rw [List.map_map]
  rw [show (byteSize ∘ fun i => StreamItem.i16 (v i)) = Function.const ℕ 2 from rfl]
  rw [List.map_const, List.sum_replicate, List.length_range, smul_eq_mul]
  omega

/-- The header is exactly `5 + 3·4 + 6·8 = 65` bytes. -/
theorem byteLen_headerTokens (w h : ℕ) (year : ℤ) (gt : GeoTransform) :
    byteLen (headerTokens w h year gt) = 65 := rfl

/-- After its 4-byte day index, a block is the two 16-bit arrays:
`2·(w·h)·2` bytes. -/
theorem byteLen_dayBlock_tail (w h : ℕ) (gt : GeoTransform) (dem : ℕ → FVal)
    (nd : FVal) (tz : ℝ) (year : ℤ) (m d doy : ℕ) :
    byteLen ((dayBlock w h gt dem nd tz year m d doy).tail) = 2 * (w * h) * 2 := by
  unfold dayBlock
  rw [List.tail_cons, byteLen_append, byteLen_i16_map, byteLen_i16_map]
  ring

/-- A whole block is `4 + 2·(w·h)·2` bytes. -/
theorem byteLen_dayBlock (w h : ℕ) (gt : GeoTransform) (dem : ℕ → FVal)
    (nd : FVal) (tz : ℝ) (year : ℤ) (m d doy : ℕ) :
    byteLen (dayBlock w h gt dem nd tz year m d doy) = 4 + 2 * (w * h) * 2 := by
  unfold dayBlock
  rw [byteLen_cons, byteLen_append, byteLen_i16_map, byteLen_i16_map]
  simp [byteSize]
  ring

/-- No block contains a magic token. -/
theorem countP_magic_dayBlock (w h : ℕ) (gt : GeoTransform) (dem : ℕ → FVal)
    (nd : FVal) (tz : ℝ) (year : ℤ) (m d doy : ℕ) :
    (dayBlock w h gt dem nd tz year m d doy).countP isMagicToken = 0 := by
  rw [List.countP_eq_zero]
  intro a ha
  simp only [dayBlock, List.mem_cons, List.mem_append, List.mem_map,
    List.mem_range] at ha
  rcases ha with rfl | ⟨i, _, rfl⟩ | ⟨i, _, rfl⟩ <;> simp [isMagicToken]

/-- The body of the stream contains no magic token. -/
theorem countP_magic_streamBodyAux (w h : ℕ) (gt : GeoTransform) (dem : ℕ → FVal)
    (nd : FVal) (tz : ℝ) (year : ℤ) :
    ∀ (l : List (ℕ × ℕ)) (k : ℕ),
    (streamBodyAux w h gt dem nd tz year l k).countP isMagicToken = 0 := by
  intro l
  induction l with
  | nil => intro k; rfl
  | cons md rest ih =>
    intro k
    rw [show streamBodyAux w h gt dem nd tz year (md :: rest) k =
        dayBlock w h gt dem nd tz year md.1 md.2 (k + 1) ++
          streamBodyAux w h gt dem nd tz year rest (k + 1) from rfl]
    rw [List.countP_append, countP_magic_dayBlock, ih]

end SunCast

namespace SunCast

open Real

/-! ### Claim C4 (amended: after the 4-byte day index a block is
`2·width·height·2` bytes, not `8 + 2·width·height·2`) -/

/-- C4 (amended): the stream is a 65-byte header written exactly once — the
5-byte ASCII magic `"SOLAR"`, three 32-bit ints (width, height, daysInYear),
six 64-bit geotransform floats — followed by exactly `daysInYear` blocks in
increasing day-of-year order, each a 32-bit 1-based day index, then the full
sunrise array, then the full sunset array as 16-bit values, so each block is
`2·width·height·2` bytes after its 4-byte day index. -/
theorem claim_C4 (w h : ℕ) (gt : GeoTransform) (dem : ℕ → FVal) (nd : FVal)
    (year : ℤ) (tz : ℝ) :
    streamBinaryOutput w h gt dem nd year tz =
      headerTokens w h year gt ++ streamBody w h gt dem nd tz year ∧
    headerTokens w h year gt =
      StreamItem.magic ("SOLAR") :: StreamItem.i32 (w : ℤ) :: StreamItem.i32 (h : ℤ) ::
        StreamItem.i32 ((daysInYear year : ℕ) : ℤ) ::
        List.ofFn (fun i : Fin 6 => StreamItem.f64 (gt i)) ∧
    byteLen (headerTokens w h year gt) = 65 ∧
    (streamBinaryOutput w h gt dem nd year tz).countP isMagicToken = 1 ∧
    streamBody w h gt dem nd tz year =
      (List.range (daysInYear year)).flatMap (fun k =>
        dayBlock w h gt dem nd tz year (mdOf (isLeapYear year) k).1
          (mdOf (isLeapYear year) k).2 (k + 1)) ∧
    (∀ m d doy, dayBlock w h gt dem nd tz year m d doy =
        StreamItem.i32 (doy : ℤ) ::
          (((List.range (w * h)).map fun i =>
              StreamItem.i16 (streamPixel w gt dem nd tz year m d i).1) ++
            ((List.range (w * h)).map fun i =>
              StreamItem.i16 (streamPixel w gt dem nd tz year m d i).2)) ∧
      byteLen ((dayBlock w h gt dem nd tz year m d doy).tail) = 2 * (w * h) * 2 ∧
      byteLen (dayBlock w h gt dem nd tz year m d doy) = 4 + 2 * (w * h) * 2) := by
  refine ⟨rfl, rfl, byteLen_headerTokens w h year gt, ?_, ?_, ?_⟩
  · rw [show streamBinaryOutput w h gt dem nd year tz =
        headerTokens w h year gt ++ streamBody w h gt dem nd tz year from rfl]
    rw [List.countP_append]
    rw [show (headerTokens w h year gt).countP isMagicToken = 1 from rfl]
    unfold streamBody
    rw [countP_magic_streamBodyAux]
  · unfold streamBody
    rw [streamBodyAux_eq w h gt dem nd tz year (monthDayPairs (isLeapYear year)) 0,
      monthDayPairs_length_daysInYear]
    refine congrArg _ (funext fun j => ?_)
    rw [show 0 + j + 1 = j + 1 by omega]
    rfl
  · intro m d doy
    exact ⟨rfl, byteLen_dayBlock_tail w h gt dem nd tz year m d doy,
      byteLen_dayBlock w h gt dem nd tz year m d doy⟩

/-- Counterexample to C4 as stated: for a 1×1 grid the bytes after a block's
4-byte day index total `2·1·1·2 = 4`, not `8 + 2·1·1·2 = 12`. -/
theorem claim_C4_counterexample :
    byteLen ((dayBlock 1 1 (fun _ => 0) (fun _ => FVal.val 100) (FVal.val (-9999))
      1 2025 1 1 1).tail) = 4 ∧
    ¬ byteLen ((dayBlock 1 1 (fun _ => 0) (fun _ => FVal.val 100) (FVal.val (-9999))
      1 2025 1 1 1).tail) = 8 + 2 * (1 * 1) * 2 := by
  have h : byteLen ((dayBlock 1 1 (fun _ => 0) (fun _ => FVal.val 100) (FVal.val (-9999))
      1 2025 1 1 1).tail) = 4 := by
    rw [byteLen_dayBlock_tail]
  exact ⟨h, by rw [h]; norm_num⟩

/-! ### Claim C5 -/

/-- C5: the masking policies differ between the modes.  Streaming masks a
pixel whose elevation is NaN, equals the no-data value, or equals exactly
zero, writing `(-1, -1)`; raster mode masks only NaN/no-data (all bands get
the no-data sentinel), and elevation exactly zero is processed normally —
the calculator is invoked on it for every day of the year. -/
theorem claim_C5 (nd : FVal) (w : ℕ) (gt : GeoTransform) (dem : ℕ → FVal)
    (tz : ℝ) (year : ℤ) (m d i : ℕ) (e : FVal) (lat lon : ℝ) :
    ((dem i).isNaN ∨ (dem i).feq nd ∨ (dem i).feq (FVal.val 0) →
      streamPixel w gt dem nd tz year m d i = (-1, -1)) ∧
    (e.isNaN ∨ e.feq nd →
      rasterPixelBands e nd lat lon year tz =
        List.replicate (2 * daysInYear year) NODATA_VALUE) ∧
    (¬ (FVal.val 0).isNaN ∧
      (¬ (FVal.val 0).feq nd →
        rasterPixelBands (FVal.val 0) nd lat lon year tz =
          (monthDayPairs (isLeapYear year)).flatMap fun md =>
            [(SolarCalculator.mk tz).calculateSunrise lat lon 0 year md.1 md.2,
             (SolarCalculator.mk tz).calculateSunset lat lon 0 year md.1 md.2])) := by
  refine ⟨?_, ?_, ?_, ?_⟩
  · intro hm
    unfold streamPixel
    rw [if_pos hm]
  · intro hm
    unfold rasterPixelBands
    rw [if_pos hm]
  · intro hfalse
    exact hfalse
  · intro hne
    unfold rasterPixelBands
    rw [if_neg (by
      rintro (hnan | hfeq)
      · exact hnan
      · exact hne hfeq)]
    rfl

/-- Witness for C5: a zero-elevation pixel is masked in streaming mode but
processed in raster mode; a NaN pixel is masked in raster mode. -/
theorem claim_C5_witness :
    streamPixel 1 (fun _ => 0) (fun _ => FVal.val 0) (FVal.val (-9999)) 1 2025 1 1 0 =
      (-1, -1) ∧
    rasterPixelBands FVal.nan (FVal.val (-9999)) 0 0 2025 1 =
      List.replicate (2 * daysInYear 2025) NODATA_VALUE ∧
    rasterPixelBands (FVal.val 0) (FVal.val (-9999)) 0 0 2025 1 =
      (monthDayPairs (isLeapYear 2025)).flatMap fun md =>
        [(SolarCalculator.mk 1).calculateSunrise 0 0 0 2025 md.1 md.2,
         (SolarCalculator.mk 1).calculateSunset 0 0 0 2025 md.1 md.2] := by
  have h := claim_C5 (FVal.val (-9999)) 1 (fun _ => 0) (fun _ => FVal.val 0) 1 2025 1 1 0
    FVal.nan 0 0
  refine ⟨h.1 (Or.inr (Or.inr rfl)), h.2.1 (Or.inl trivial), h.2.2.2 ?_⟩
  intro hfeq
  have : (0 : ℝ) = -9999 := hfeq
  norm_num at this

end SunCast

namespace SunCast

open Real

/-! ### Claim C10 -/

/-- C10: the raster no-data value `−9999.0f` coincides numerically with the
calculator's no-event sentinel `−9999.0`; a masked pixel carries
`NODATA_VALUE` in every band, and an unmasked pixel in polar day/night
carries the very same value in that day's two bands, so the raster artifact
cannot distinguish the two situations. -/
theorem claim_C10 (e nd : FVal) (lat lon tz : ℝ) (year : ℤ) (k j : ℕ) :
    NODATA_VALUE = (-9999 : ℝ) ∧
    (e.isNaN ∨ e.feq nd →
      (rasterPixelBands e nd lat lon year tz).getD j NODATA_VALUE = NODATA_VALUE) ∧
    (¬ (e.isNaN ∨ e.feq nd) → k < daysInYear year →
      (1 < cosHourAngle lat (sunDeclination (julianCentury (julianDay year
            ((mdOf (isLeapYear year) k).1 : ℤ) ((mdOf (isLeapYear year) k).2 : ℤ)))) e.toReal ∨
        cosHourAngle lat (sunDeclination (julianCentury (julianDay year
            ((mdOf (isLeapYear year) k).1 : ℤ) ((mdOf (isLeapYear year) k).2 : ℤ)))) e.toReal
          < -1) →
      (rasterPixelBands e nd lat lon year tz).getD (2 * k) NODATA_VALUE = NODATA_VALUE ∧
      (rasterPixelBands e nd lat lon year tz).getD (2 * k + 1) NODATA_VALUE = NODATA_VALUE) := by
  have hnod : NODATA_VALUE = (-9999 : ℝ) := by norm_num [NODATA_VALUE]
  refine ⟨hnod, ?_, ?_⟩
  · intro hm
    unfold rasterPixelBands
    rw [if_pos hm]
    exact getD_replicate_self NODATA_VALUE _ j
  · intro hm hk hpolar
    unfold rasterPixelBands
    rw [if_neg hm]
    have hlen : k < (monthDayPairs (isLeapYear year)).length := by
      rw [monthDayPairs_length_daysInYear]
      exact hk
    have hp := flatMap_pair_getD
      (fun md : ℕ × ℕ =>
        (SolarCalculator.mk tz).calculateSunrise lat lon e.toReal year md.1 md.2)
      (fun md : ℕ × ℕ =>
        (SolarCalculator.mk tz).calculateSunset lat lon e.toReal year md.1 md.2)
      NODATA_VALUE (0, 0) (monthDayPairs (isLeapYear year)) k hlen
    constructor
    · rw [hp.1, hnod]
      exact calculateSolarTime_sentinel (SolarCalculator.mk tz) lat lon e.toReal year
        ((mdOf (isLeapYear year) k).1 : ℤ) ((mdOf (isLeapYear year) k).2 : ℤ) true hpolar
    · rw [hp.2, hnod]
      exact calculateSolarTime_sentinel (SolarCalculator.mk tz) lat lon e.toReal year
        ((mdOf (isLeapYear year) k).1 : ℤ) ((mdOf (isLeapYear year) k).2 : ℤ) false hpolar

/-- Witness for C10: on 2000-01-01 (day index 0) at latitude 60°N with the
elevation that drives the zenith to 60°, an unmasked pixel reads
`NODATA_VALUE` in both of that day's bands, exactly like a NaN-masked pixel. -/
theorem claim_C10_witness :
    (rasterPixelBands FVal.nan (FVal.val (-9999)) 60 0 2000 1).getD 5 NODATA_VALUE =
      NODATA_VALUE ∧
    (rasterPixelBands (FVal.val ((30.833 * 60 / 2.076) ^ 2)) (FVal.val (-9999))
      60 0 2000 1).getD (2 * 0) NODATA_VALUE = NODATA_VALUE ∧
    (rasterPixelBands (FVal.val ((30.833 * 60 / 2.076) ^ 2)) (FVal.val (-9999))
      60 0 2000 1).getD (2 * 0 + 1) NODATA_VALUE = NODATA_VALUE := by
  have h1 := (claim_C10 FVal.nan (FVal.val (-9999)) 60 0 1 2000 0 5).2.1 (Or.inl trivial)
  have hm : ¬ ((FVal.val ((30.833 * 60 / 2.076) ^ 2)).isNaN ∨
      (FVal.val ((30.833 * 60 / 2.076) ^ 2)).feq (FVal.val (-9999))) := by
    rintro (hnan | hfeq)
    · exact hnan
    · have : ((30.833 * 60 / 2.076) ^ 2 : ℝ) = -9999 := hfeq
      norm_num at this
  have hmd : mdOf (isLeapYear 2000) 0 = (1, 1) := rfl
  have hpolar : 1 < cosHourAngle 60 (sunDeclination (julianCentury (julianDay 2000
      ((mdOf (isLeapYear 2000) 0).1 : ℤ) ((mdOf (isLeapYear 2000) 0).2 : ℤ))))
      (FVal.val ((30.833 * 60 / 2.076) ^ 2)).toReal := by
    rw [hmd]
    show 1 < cosHourAngle 60 (sunDeclination (julianCentury (julianDay 2000 1 1)))
      ((30.833 * 60 / 2.076) ^ 2)
    rw [t2000]
    exact polar_cos_gt_one
  have h2 := (claim_C10 (FVal.val ((30.833 * 60 / 2.076) ^ 2)) (FVal.val (-9999))
    60 0 1 2000 0 0).2.2 hm (by decide) (Or.inl hpolar)
  exact ⟨h1, h2.1, h2.2⟩

end SunCast
